/-
Verification of the video-compilation worker (Mudsr/video-compilation).

Shallow embedding of the worker's job-processing pipeline:
  * src/models.py                      — data model (dataclasses, enums)
  * src/services/video_compiler.py     — VideoCompiler (encoder invoker)
  * src/services/storage_service.py    — StorageService (frame retrieval, upload)
  * src/services/queue_consumer.py     — QueueConsumer (broker gateway)
  * main.py                            — VideoProcessorWorker (job orchestrator)

Modelling conventions:
  * Python floats (wall-clock times, frame durations) are modelled as
    rationals (ℚ); Python ints that the pipeline keeps non-negative are Nat,
    the encoder's exit code is Int.
  * I/O and the external world (filesystem, broker, object store, the ffmpeg
    subprocess) are modelled by explicit environment records passed in:
    the embedding of a function is a pure function of its arguments and of
    the outcomes the environment hands it (exit code, timeout, file sizes,
    per-frame fetch success, exceptions raised by collaborators).
  * Python exception flow is modelled by `Option String` fields (`none` = no
    exception) and by outcome inductives naming which exception class fired.
-/
import Mathlib

/-! ## Data model (src/models.py) -/

/-- `VideoCompilationJob` dataclass: `request_id`, `total_frames`, and the
defaulted `output_format="mp4"`, `fps=30`, `quality="medium"`. -/
structure VideoCompilationJob where
  request_id : String
  total_frames : Nat
  output_format : String := "mp4"
  fps : Nat := 30
  quality : String := "medium"
deriving DecidableEq, Repr

/-- `FrameInfo` dataclass: `frame_number`, `frame_url`, optional `local_path`. -/
structure FrameInfo where
  frame_number : Nat
  frame_url : String
  local_path : Option String := none
deriving DecidableEq, Repr

/-- `CompilationResult` dataclass; `completed_at` is modelled as an optional
timestamp value and is never set by `compile_video`. -/
structure CompilationResult where
  request_id : String
  success : Bool
  video_url : Option String := none
  error_message : Option String := none
  compilation_time : Option ℚ := none
  completed_at : Option ℚ := none
deriving DecidableEq, Repr

/-- `VideoQuality(str, Enum)` from src/models.py. -/
inductive VideoQuality where
  | low
  | medium
  | high
  | ultra
deriving DecidableEq, Repr

/-! ## VideoCompiler (src/services/video_compiler.py) -/

/-- One row of `VideoCompiler.quality_presets`: CRF value, speed preset, and
the optional `"scale"` entry of the settings dict (every preset in the source
table populates it, but `_build_ffmpeg_command` tests for its presence). -/
structure QualityPreset where
  crf : Nat
  preset : String
  scale : Option String
deriving DecidableEq, Repr

/-- The fixed `quality_presets` table of `VideoCompiler.__init__`. -/
def quality_presets : VideoQuality → QualityPreset
  | .low => { crf := 28, preset := "fast", scale := some "720:480" }
  | .medium => { crf := 23, preset := "medium", scale := some "1280:720" }
  | .high => { crf := 18, preset := "slow", scale := some "1920:1080" }
  | .ultra => { crf := 15, preset := "veryslow", scale := some "1920:1080" }

/-- Lookup of a quality string against the `VideoQuality(str, Enum)` members:
`VideoQuality` is a str-enum, so a plain string key hits the dict entry whose
enum value equals it. -/
def videoQualityOfString (s : String) : Option VideoQuality :=
  if s = "low" then some .low
  else if s = "medium" then some .medium
  else if s = "high" then some .high
  else if s = "ultra" then some .ultra
  else none

/-- `self.quality_presets.get(quality, self.quality_presets[VideoQuality.MEDIUM])`
(video_compiler.py line 75): an unrecognized tag falls back to the medium row. -/
def resolve_quality (quality : String) : QualityPreset :=
  match videoQualityOfString quality with
  | some v => quality_presets v
  | none => quality_presets .medium

/-- Python `sorted(frames, key=lambda x: x.frame_number)` comparison. -/
def frameLe (a b : FrameInfo) : Bool :=
  a.frame_number ≤ b.frame_number

/-- One line of the ffconcat manifest written by `_create_frame_list_file`,
kept structured (the duration is the rational value interpolated into the
`duration` directive). -/
inductive ManifestLine where
  | header
  | file (path : String)
  | duration (d : ℚ)
deriving DecidableEq, Repr

/-- `VideoCompiler._create_frame_list_file` (video_compiler.py lines 154-167):
writes the `ffconcat version 1.0` header; then, for each frame whose
`local_path` is set and exists on disk (`path_exists` models
`os.path.exists`), a `file` line followed by a `duration 1/fps` line; finally,
if the frame list is non-empty and the last frame's `local_path` is truthy
(non-None and non-empty, Python truthiness), its `file` line once more with no
duration after it. -/
def create_frame_list_file (frames : List FrameInfo) (fps : Nat)
    (path_exists : String → Bool) : List ManifestLine :=
  let frame_duration : ℚ := 1 / (fps : ℚ)
  ManifestLine.header ::
    (frames.flatMap fun fr =>
      match fr.local_path with
      | some p =>
          if path_exists p then
            [ManifestLine.file p, ManifestLine.duration frame_duration]
          else []
      | none => []) ++
    (match frames.getLast? with
     | some fr =>
         match fr.local_path with
         | some p => if p = "" then [] else [ManifestLine.file p]
         | none => []
     | none => [])

/-- `VideoCompiler._build_ffmpeg_command` (video_compiler.py lines 169-198):
the fixed argument list ending in `output_path`, then — when the settings dict
carries a `"scale"` entry — `["-vf", "scale=<scale>"]` appended after it.
`output_format` is a parameter of the source function that it never uses. -/
def build_ffmpeg_command (ffmpeg_binary input_path output_path : String)
    (fps : Nat) (quality_settings : QualityPreset) (output_format : String) :
    List String :=
  let cmd := [ffmpeg_binary,
    "-f", "concat",
    "-safe", "0",
    "-i", input_path,
    "-c:v", "libx264",
    "-preset", quality_settings.preset,
    "-crf", toString quality_settings.crf,
    "-pix_fmt", "yuv420p",
    "-r", toString fps,
    "-movflags", "+faststart",
    "-y",
    output_path]
  match quality_settings.scale with
  | some s => cmd ++ ["-vf", "scale=" ++ s]
  | none => cmd

/-- `VideoCompiler` constructor state: `ffmpeg_binary` and `temp_dir`. -/
structure VideoCompiler where
  ffmpeg_binary : String := "ffmpeg"
  temp_dir : String := "/tmp/video_processing"
deriving DecidableEq, Repr

/-- Environment outcomes for one `compile_video` run: whether an unexpected
exception is raised inside the try block (after the empty-frames check),
whether `asyncio.wait_for` times out, the process exit code and captured
stderr, whether the output file exists and its byte size, and the value of
`time.time() - start_time` at the point the code reads the clock. -/
structure CompileEnv where
  raised : Option String := none
  timedOut : Bool := false
  returncode : Int := 0
  stderr : String := ""
  outputExists : Bool := false
  outputSize : Nat := 0
  elapsed : ℚ := 0
deriving DecidableEq, Repr

/-- Observable side effects of one `compile_video` run: whether the working
directory was created (`os.makedirs`), the manifest written
(`_create_frame_list_file`), and the ffmpeg subprocess started
(`asyncio.create_subprocess_exec`). -/
structure CompileEffects where
  workdir_created : Bool := false
  manifest_written : Bool := false
  process_started : Bool := false
deriving DecidableEq, Repr

/-- `VideoCompiler.compile_video` (video_compiler.py lines 40-152).
An empty frame list returns immediately with no side effects; otherwise the
working directory, manifest and subprocess all happen, and the result follows
the source's branches: an unexpected exception gives `Compilation error: ...`
with `compilation_time` measured in the except block; a timeout kills the
process and builds the result WITHOUT passing `compilation_time`; otherwise
`compilation_time` is measured, and a zero exit succeeds only when the output
file exists with size strictly over 1024 bytes, a non-zero exit fails with the
code and stderr (empty stderr is falsy, giving `Unknown FFmpeg error`).
The orchestrator's stats/logging are not modelled. -/
def compile_video (c : VideoCompiler) (request_id : String)
    (frames : List FrameInfo) (fps : Nat) (quality : String)
    (output_format : String) (max_compilation_time : Nat) (env : CompileEnv) :
    CompilationResult × CompileEffects :=
  if frames.isEmpty then
    ({ request_id := request_id, success := false,
       error_message := some "No frames provided for compilation" },
     {})
  else
    let work_dir := c.temp_dir ++ "/" ++ request_id
    let output_path := work_dir ++ "/output." ++ output_format
    let eff : CompileEffects :=
      { workdir_created := true, manifest_written := true,
        process_started := true }
    match env.raised with
    | some e =>
        ({ request_id := request_id, success := false,
           error_message := some ("Compilation error: " ++ e),
           compilation_time := some env.elapsed }, eff)
    | none =>
        if env.timedOut then
          ({ request_id := request_id, success := false,
             error_message := some ("Video compilation timed out after "
               ++ toString max_compilation_time ++ " seconds") }, eff)
        else
          let compilation_time := env.elapsed
          if env.returncode = 0 then
            if env.outputExists ∧ env.outputSize > 1024 then
              ({ request_id := request_id, success := true,
                 video_url := some output_path,
                 compilation_time := some compilation_time }, eff)
            else
              ({ request_id := request_id, success := false,
                 error_message :=
                   some "FFmpeg completed but output file is invalid or too small",
                 compilation_time := some compilation_time }, eff)
          else
            let error_msg :=
              if env.stderr = "" then "Unknown FFmpeg error" else env.stderr
            ({ request_id := request_id, success := false,
               error_message := some ("FFmpeg failed with code "
                 ++ toString env.returncode ++ ": " ++ error_msg),
               compilation_time := some compilation_time }, eff)

/-! ## StorageService (src/services/storage_service.py) -/

/-- Python `f"{n:06d}"`: decimal digits left-padded with zeros to width 6. -/
def pad6 (n : Nat) : String :=
  let s := toString n
  ("".pushn '0' (6 - s.length)) ++ s

/-- The object-store key of one frame,
`f"{request_id}/frame_{frame_number:06d}.jpg"` (storage_service.py line 43). -/
def frame_object_key (request_id : String) (frame_number : Nat) : String :=
  request_id ++ "/frame_" ++ pad6 frame_number ++ ".jpg"

/-- The local path a frame is streamed to,
`os.path.join(temp_dir, request_id, "frames", f"frame_{frame_num:06d}.jpg")`
(storage_service.py lines 72 and 79). -/
def frame_local_path (temp_dir request_id : String) (frame_num : Nat) : String :=
  temp_dir ++ "/" ++ request_id ++ "/frames/frame_" ++ pad6 frame_num ++ ".jpg"

/-- The `FrameInfo` value `download_single_frame` builds for a frame whose
fetch succeeded (storage_service.py lines 82-86). -/
def fetched_frame_info (request_id temp_dir : String) (frame_num : Nat) :
    FrameInfo :=
  { frame_number := frame_num,
    frame_url := frame_object_key request_id frame_num,
    local_path := some (frame_local_path temp_dir request_id frame_num) }

/-- The inner `download_single_frame` closure: `some` FrameInfo when the fetch
succeeds, `none` when `download_frame` returned False (a caught S3/other error);
`fetch_ok` models which frame numbers the object store serves. An exception
escaping a task is also absorbed as an absence by the result filter, so it is
folded into `none` as well. -/
def download_single_frame (request_id temp_dir : String) (fetch_ok : Nat → Bool)
    (frame_num : Nat) : Option FrameInfo :=
  if fetch_ok frame_num then
    some (fetched_frame_info request_id temp_dir frame_num)
  else none

/-- The per-task outcomes of `asyncio.gather` over frame numbers
`1..total_frames` (storage_service.py lines 90-91), in task order. -/
def frame_fetch_results (request_id temp_dir : String) (total_frames : Nat)
    (fetch_ok : Nat → Bool) : List (Option FrameInfo) :=
  (List.range' 1 total_frames).map
    (download_single_frame request_id temp_dir fetch_ok)

/-- `StorageService.download_all_frames` result assembly (storage_service.py
lines 94-101): keep the successful `FrameInfo` outcomes, drop failures and
exceptions, and return them sorted by `frame_number`. The `completed` argument
is the gathered outcome list; theorems quantify over any permutation of the
task-order outcomes so that completion order is irrelevant. -/
def download_all_frames (completed : List (Option FrameInfo)) :
    List FrameInfo :=
  (completed.filterMap id).mergeSort frameLe

/-- `StorageService.upload_video` (storage_service.py lines 103-128): on
success returns the hardcoded key `f"{request_id}/compiled_video.mp4"`; any
upload error returns `None`. `video_path` (the local file handed in) does not
influence the key. -/
def upload_video (request_id video_path : String) (upload_ok : Bool) :
    Option String :=
  if upload_ok then some (request_id ++ "/compiled_video.mp4") else none

/-! ## QueueConsumer (src/services/queue_consumer.py) -/

/-- Outcome of decoding one message body inside `_process_message`'s try
block: `ok` when `json.loads` and the `VideoCompilationJob(**job_data)`
dataclass call both succeed; `jsonDecodeError` when `json.loads` raises
`json.JSONDecodeError`; `schemaError` when the JSON parses but the dataclass
constructor raises (e.g. `TypeError` for a missing required `request_id` or
`total_frames` key, or an unexpected key) — `TypeError` is not a
`json.JSONDecodeError`, so it reaches the generic `except Exception` handler. -/
inductive DecodeOutcome where
  | ok (job : VideoCompilationJob)
  | jsonDecodeError
  | schemaError (e : String)
deriving DecidableEq, Repr

/-- The broker operation `_process_message` performs on the delivery. -/
inductive BrokerAction where
  | ack
  | nackRequeue
  | rejectNoRequeue
deriving DecidableEq, Repr

/-- `QueueConsumer._process_message` (queue_consumer.py lines 70-110), as the
broker action taken for one delivery: a decoded job runs the handler and acks
on True, nacks with requeue on False (or when no handler is set);
`json.JSONDecodeError` is answered by `basic_reject(requeue=False)`; every
other exception — including the dataclass `TypeError` on schema-invalid
payloads — falls to `except Exception` and `basic_nack(requeue=True)`. -/
def process_message (decode : DecodeOutcome) (handler_set : Bool)
    (handler_result : Bool) : BrokerAction :=
  match decode with
  | .ok _ =>
      if handler_set then
        if handler_result then .ack else .nackRequeue
      else .nackRequeue
  | .jsonDecodeError => .rejectNoRequeue
  | .schemaError _ => .nackRequeue

/-! ## VideoProcessorWorker (main.py) -/

/-- One `api_client.update_video_status` call: status plus the optional
keyword arguments the worker passes. -/
structure StatusUpdate where
  status : String
  video_url : Option String := none
  error_message : Option String := none
  compilation_time : Option ℚ := none
deriving DecidableEq, Repr

/-- Python truthiness of an `Optional[str]`: `None` and `""` are falsy. -/
def truthyOptStr : Option String → Bool
  | some s => s ≠ ""
  | none => false

/-- `VideoProcessorWorker.process_video_compilation_job` (main.py lines
73-160), given the collaborator outcomes of the run: the frames
`download_all_frames` returned, the `CompilationResult` from `compile_video`,
and the `upload_video` return value. Produces the boolean handed back to the
Queue Gateway and the ordered list of status updates sent to the coordinator.
A frame-count mismatch fails before compilation; a successful compilation with
a truthy `video_url` is uploaded, and a truthy upload result completes the
job; otherwise the job fails with the corresponding message. The stats
counters, logging, the outer `except Exception` path and the `finally` cleanup
are outside the claims settled here and are not modelled. -/
def process_video_compilation_job (job : VideoCompilationJob)
    (frames : List FrameInfo) (compile_result : CompilationResult)
    (upload_result : Option String) : Bool × List StatusUpdate :=
  let processing : StatusUpdate := { status := "processing" }
  if frames.length ≠ job.total_frames then
    (false, [processing,
      { status := "failed",
        error_message := some ("Downloaded " ++ toString frames.length ++ "/"
          ++ toString job.total_frames ++ " frames") }])
  else if compile_result.success ∧ truthyOptStr compile_result.video_url then
    if truthyOptStr upload_result then
      (true, [processing,
        { status := "completed", video_url := upload_result,
          compilation_time := compile_result.compilation_time }])
    else
      (false, [processing,
        { status := "failed",
          error_message := some "Failed to upload compiled video",
          compilation_time := compile_result.compilation_time }])
  else
    (false, [processing,
      { status := "failed",
        error_message := compile_result.error_message,
        compilation_time := compile_result.compilation_time }])

/-! ## Shared sample values for concrete instantiations -/

/-- A sample fetched frame for the default temp dir, used in concrete runs. -/
def sampleFrame (request_id : String) (i : Nat) : FrameInfo :=
  fetched_frame_info request_id "/tmp/video_processing" i

/-! ## Claims -/

/-- C1 (counterexample): a message whose body is valid JSON but fails schema
validation — here the dataclass `TypeError` for a missing `total_frames`
field — is negatively acknowledged WITH requeue by `_process_message`, not
permanently rejected, refuting the claim that every decode failure is a
permanent rejection with requeue disabled. -/
theorem c1_schema_error_counterexample :
    process_message
        (DecodeOutcome.schemaError "TypeError: missing argument total_frames")
        true true = BrokerAction.nackRequeue ∧
      BrokerAction.nackRequeue ≠ BrokerAction.rejectNoRequeue :=
  ⟨rfl, by decide⟩

/-- C1 (amended): only a `json.JSONDecodeError` from parsing the body is
answered with a permanent rejection (requeue disabled); valid JSON that fails
schema validation raises outside that handler and is negatively acknowledged
with requeue enabled. -/
theorem c1_decode_failure_actions (e : String) (hs hr : Bool) :
    process_message DecodeOutcome.jsonDecodeError hs hr =
        BrokerAction.rejectNoRequeue ∧
      process_message (DecodeOutcome.schemaError e) hs hr =
        BrokerAction.nackRequeue :=
  ⟨rfl, rfl⟩

/-- C3 (counterexample): for a job with `output_format = "webm"` whose
compiled file is `.../output.webm`, `upload_video` stores the object under
`r1/compiled_video.mp4`, not `r1/compiled_video.webm` as the claim requires. -/
theorem c3_upload_key_counterexample :
    upload_video "r1" "/tmp/video_processing/r1/output.webm" true =
        some "r1/compiled_video.mp4" ∧
      (some "r1/compiled_video.mp4" : Option String) ≠
        some "r1/compiled_video.webm" :=
  ⟨rfl, by decide⟩

/-- C3 (amended): every successful upload is stored under the key
`request_id ++ "/compiled_video.mp4"`, regardless of the job's output format
and of the local path of the compiled file. -/
theorem c3_upload_key_fixed (request_id video_path : String) :
    upload_video request_id video_path true =
      some (request_id ++ "/compiled_video.mp4") :=
  rfl

/-- C8: the four recognized quality tags resolve to exactly their preset table
rows, and any unrecognized tag resolves to the medium preset (CRF 23, speed
preset "medium", scale 1280x720) without error. -/
theorem c8_quality_resolution :
    resolve_quality "low" =
        { crf := 28, preset := "fast", scale := some "720:480" } ∧
      resolve_quality "medium" =
        { crf := 23, preset := "medium", scale := some "1280:720" } ∧
      resolve_quality "high" =
        { crf := 18, preset := "slow", scale := some "1920:1080" } ∧
      resolve_quality "ultra" =
        { crf := 15, preset := "veryslow", scale := some "1920:1080" } ∧
      ∀ q : String, q ∉ (["low", "medium", "high", "ultra"] : List String) →
        resolve_quality q =
          { crf := 23, preset := "medium", scale := some "1280:720" } := by
  refine ⟨rfl, rfl, rfl, rfl, ?_⟩
  intro q hq
  simp only [List.mem_cons, List.mem_singleton, not_or] at hq
  obtain ⟨h1, h2, h3, h4, -⟩ := hq
  simp [resolve_quality, videoQualityOfString, h1, h2, h3, h4, quality_presets]

/-- C8 (witness): the unrecognized tag "4k" resolves to the medium preset. -/
theorem c8_quality_resolution_witness :
    ("4k" ∉ (["low", "medium", "high", "ultra"] : List String)) ∧
      resolve_quality "4k" =
        { crf := 23, preset := "medium", scale := some "1280:720" } :=
  ⟨by decide, c8_quality_resolution.2.2.2.2 "4k" (by decide)⟩

/-- C9: `compile_video` on an empty frame list returns an immediate failure
with the "No frames provided for compilation" message, `compilation_time`
unset, and with no working directory created, no manifest written and no
encoder process started. -/
theorem c9_empty_frames (c : VideoCompiler) (request_id : String) (fps : Nat)
    (quality output_format : String) (max_compilation_time : Nat)
    (env : CompileEnv) :
    compile_video c request_id [] fps quality output_format
        max_compilation_time env =
      ({ request_id := request_id, success := false,
         error_message := some "No frames provided for compilation" },
       { workdir_created := false, manifest_written := false,
         process_started := false }) :=
  rfl

/-- C10: for every resolved quality preset the built ffmpeg argument list is
the fixed head ending in the output path, with `"-vf" "scale=<scale>"`
appended after it, so the last argument is the scale filter and the output
path is not final. -/
theorem c10_scale_after_output (ffmpeg_binary input_path output_path : String)
    (fps : Nat) (quality output_format : String) :
    ∃ s, (resolve_quality quality).scale = some s ∧
      build_ffmpeg_command ffmpeg_binary input_path output_path fps
          (resolve_quality quality) output_format =
        ([ffmpeg_binary, "-f", "concat", "-safe", "0", "-i", input_path,
          "-c:v", "libx264", "-preset", (resolve_quality quality).preset,
          "-crf", toString (resolve_quality quality).crf,
          "-pix_fmt", "yuv420p", "-r", toString fps,
          "-movflags", "+faststart", "-y", output_path] ++
         ["-vf", "scale=" ++ s]) ∧
      (build_ffmpeg_command ffmpeg_binary input_path output_path fps
          (resolve_quality quality) output_format).getLast? =
        some ("scale=" ++ s) := by
  obtain ⟨s, hs⟩ : ∃ s, (resolve_quality quality).scale = some s := by
    unfold resolve_quality videoQualityOfString
    rcases h : (if quality = "low" then some VideoQuality.low
      else if quality = "medium" then some VideoQuality.medium
      else if quality = "high" then some VideoQuality.high
      else if quality = "ultra" then some VideoQuality.ultra
      else none) with - | v
    · exact ⟨"1280:720", rfl⟩
    · cases v <;> exact ⟨_, rfl⟩
  refine ⟨s, hs, ?_, ?_⟩
  · simp [build_ffmpeg_command, hs]
  · simp only [build_ffmpeg_command, hs]
    rw [show (["-vf", "scale=" ++ s] : List String) = ["-vf"] ++ ["scale=" ++ s]
      from rfl, ← List.append_assoc, List.getLast?_concat]

/-- A non-empty list is not `isEmpty`. -/
theorem isEmpty_eq_false_of_ne_nil {α : Type} {l : List α} (h : l ≠ []) :
    l.isEmpty = false := by
  cases l with
  | nil => exact absurd rfl h
  | cons a t => rfl

/-- Environment of a `compile_video` run that times out after 5 seconds of
wall clock. -/
def c2env : CompileEnv := { timedOut := true, elapsed := 5 }

/-- Environment of a clean `compile_video` run: zero exit, output file present
with 2048 bytes, 2 seconds elapsed. -/
def sampleOkEnv : CompileEnv :=
  { returncode := 0, outputExists := true, outputSize := 2048, elapsed := 2 }

/-- C2 (counterexample): a `compile_video` run that hits the timeout returns a
result whose `compilation_time` is `none` — not the elapsed wall time (here 5)
that the claim requires on the timeout path. -/
theorem c2_timeout_counterexample :
    (compile_video {} "r1" [sampleFrame "r1" 1] 30 "medium" "mp4" 300
        c2env).1.compilation_time = none ∧
      (compile_video {} "r1" [sampleFrame "r1" 1] 30 "medium" "mp4" 300
        c2env).1.compilation_time ≠ some c2env.elapsed :=
  ⟨rfl, by decide⟩

/-- C2 (amended): for a non-empty frame list, `compile_video` records
`compilation_time` as the measured elapsed time on the success, invalid/small
output, non-zero-exit and unexpected-exception paths, but on the timeout path
the result is built without it and `compilation_time` is `none`. -/
theorem c2_compilation_time (c : VideoCompiler) (request_id : String)
    (frames : List FrameInfo) (fps : Nat) (quality output_format : String)
    (max_compilation_time : Nat) (env : CompileEnv) (hne : frames ≠ []) :
    (compile_video c request_id frames fps quality output_format
        max_compilation_time env).1.compilation_time =
      if env.raised = none ∧ env.timedOut = true then none
      else some env.elapsed := by
  have hE := isEmpty_eq_false_of_ne_nil hne
  unfold compile_video
  simp only [hE, Bool.false_eq_true, if_false]
  rcases hr : env.raised with - | e
  · rcases ht : env.timedOut with - | -
    · simp only [hr, ht]
      by_cases hc : env.returncode = 0
      · by_cases hx : (env.outputExists = true ∧ env.outputSize > 1024)
        · simp [hc, hx]
        · simp [hc, hx]
      · simp [hc]
    · simp [hr, ht]
  · simp [hr]

/-- C2 (witness for the amended claim): a concrete non-timeout run (zero exit,
valid output, elapsed 2) records `compilation_time = some 2`. -/
theorem c2_compilation_time_witness :
    (([sampleFrame "r1" 1] : List FrameInfo) ≠ []) ∧
      (compile_video {} "r1" [sampleFrame "r1" 1] 30 "medium" "mp4" 300
          sampleOkEnv).1.compilation_time =
        if sampleOkEnv.raised = none ∧ sampleOkEnv.timedOut = true then none
        else some sampleOkEnv.elapsed :=
  ⟨by simp, c2_compilation_time {} "r1" [sampleFrame "r1" 1] 30 "medium" "mp4"
    300 sampleOkEnv (by simp)⟩

/-- C5: on a run with no exception, no timeout and exit code zero, the result
succeeds exactly when the output file exists with size strictly over 1024
bytes; when the file is absent or at most 1024 bytes, the result fails with
the invalid-output error message despite the zero exit code. -/
theorem c5_zero_exit_size_gate (c : VideoCompiler) (request_id : String)
    (frames : List FrameInfo) (fps : Nat) (quality output_format : String)
    (max_compilation_time : Nat) (env : CompileEnv) (hne : frames ≠ [])
    (hraised : env.raised = none) (htime : env.timedOut = false)
    (hcode : env.returncode = 0) :
    ((compile_video c request_id frames fps quality output_format
        max_compilation_time env).1.success = true ↔
      (env.outputExists = true ∧ 1024 < env.outputSize)) ∧
    (¬(env.outputExists = true ∧ 1024 < env.outputSize) →
      (compile_video c request_id frames fps quality output_format
          max_compilation_time env).1.success = false ∧
        (compile_video c request_id frames fps quality output_format
            max_compilation_time env).1.error_message =
          some "FFmpeg completed but output file is invalid or too small") := by
  have hE := isEmpty_eq_false_of_ne_nil hne
  unfold compile_video
  simp only [hE, Bool.false_eq_true, if_false, hraised, htime]
  by_cases hx : (env.outputExists = true ∧ env.outputSize > 1024)
  · simp [hcode, hx]
  · simp [hcode, hx]

/-- C5 (witness): with exit code zero, an existing 2048-byte output file gives
success, and the size gate 1024 < 2048 holds. -/
theorem c5_zero_exit_size_gate_witness :
    (([sampleFrame "r1" 1] : List FrameInfo) ≠ []) ∧
      sampleOkEnv.raised = none ∧ sampleOkEnv.timedOut = false ∧
      sampleOkEnv.returncode = 0 ∧
      (((compile_video {} "r1" [sampleFrame "r1" 1] 30 "medium" "mp4" 300
            sampleOkEnv).1.success = true ↔
          (sampleOkEnv.outputExists = true ∧ 1024 < sampleOkEnv.outputSize)) ∧
        (¬(sampleOkEnv.outputExists = true ∧ 1024 < sampleOkEnv.outputSize) →
          (compile_video {} "r1" [sampleFrame "r1" 1] 30 "medium" "mp4" 300
              sampleOkEnv).1.success = false ∧
            (compile_video {} "r1" [sampleFrame "r1" 1] 30 "medium" "mp4" 300
                sampleOkEnv).1.error_message =
              some "FFmpeg completed but output file is invalid or too small")) :=
  ⟨by simp, rfl, rfl, rfl,
    c5_zero_exit_size_gate {} "r1" [sampleFrame "r1" 1] 30 "medium" "mp4" 300
      sampleOkEnv (by simp) rfl rfl rfl⟩

/-- C4: when retrieval returns fewer frames than `total_frames`, the
orchestrator returns failure and sends exactly the "processing" update
followed by a terminal "failed" update whose message is
`Downloaded <obtained>/<expected> frames` — a string containing the literal
`<obtained>/<expected>` counts — and the Queue Gateway answers the returned
failure with a negative acknowledgment that requeues the delivery. -/
theorem c4_retrieval_shortfall (job : VideoCompilationJob)
    (frames : List FrameInfo) (compile_result : CompilationResult)
    (upload_result : Option String)
    (hlt : frames.length < job.total_frames) :
    process_video_compilation_job job frames compile_result upload_result =
      (false,
       [{ status := "processing" },
        { status := "failed",
          error_message := some ("Downloaded " ++ toString frames.length
            ++ "/" ++ toString job.total_frames ++ " frames") }]) ∧
    (∃ pre post,
      "Downloaded " ++ toString frames.length ++ "/"
          ++ toString job.total_frames ++ " frames" =
        pre ++ (toString frames.length ++ "/" ++ toString job.total_frames)
          ++ post) ∧
    process_message (DecodeOutcome.ok job) true
        (process_video_compilation_job job frames compile_result
          upload_result).1 =
      BrokerAction.nackRequeue := by
  have hne : frames.length ≠ job.total_frames := Nat.ne_of_lt hlt
  refine ⟨?_, ⟨"Downloaded ", " frames", ?_⟩, ?_⟩
  · simp [process_video_compilation_job, hne]
  · simp [String.append_assoc]
  · simp [process_video_compilation_job, hne, process_message]

/-- The job of the retrieval-shortfall sample run: 5 frames requested. -/
def c4job : VideoCompilationJob := { request_id := "r2", total_frames := 5 }

/-- The 4 frames retrieved in the retrieval-shortfall sample run. -/
def c4frames : List FrameInfo :=
  [sampleFrame "r2" 1, sampleFrame "r2" 2, sampleFrame "r2" 3,
   sampleFrame "r2" 4]

/-- C4 (witness): 4 of 5 frames retrieved gives a failed terminal update whose
message is the literal "Downloaded 4/5 frames", and a requeueing nack. -/
theorem c4_retrieval_shortfall_witness :
    c4frames.length < c4job.total_frames ∧
      ("Downloaded " ++ toString c4frames.length ++ "/"
          ++ toString c4job.total_frames ++ " frames" =
        "Downloaded 4/5 frames") ∧
      (process_video_compilation_job c4job c4frames
          { request_id := "r2", success := false } none =
        (false,
         [{ status := "processing" },
          { status := "failed",
            error_message := some ("Downloaded " ++ toString c4frames.length
              ++ "/" ++ toString c4job.total_frames ++ " frames") }]) ∧
      (∃ pre post,
        "Downloaded " ++ toString c4frames.length ++ "/"
            ++ toString c4job.total_frames ++ " frames" =
          pre ++ (toString c4frames.length ++ "/"
            ++ toString c4job.total_frames) ++ post) ∧
      process_message (DecodeOutcome.ok c4job) true
          (process_video_compilation_job c4job c4frames
            { request_id := "r2", success := false } none).1 =
        BrokerAction.nackRequeue) :=
  ⟨by decide, by decide,
    c4_retrieval_shortfall c4job c4frames
      { request_id := "r2", success := false } none (by decide)⟩

/-- Pointwise-equal functions give equal `flatMap` over the same list. -/
theorem flatMap_congr_of_mem {α β : Type} {l : List α} {f g : α → List β}
    (h : ∀ x ∈ l, f x = g x) : l.flatMap f = l.flatMap g := by
  induction l with
  | nil => rfl
  | cons a t ih =>
      rw [List.flatMap_cons, List.flatMap_cons, h a (by simp),
        ih fun x hx => h x (by simp [hx])]

/-- C7: for a non-empty frame list whose frames all carry a non-empty local
path that exists on disk, and a positive fps, the manifest is the header, then
each frame's `file` line followed by a `duration 1/fps` line, and finally the
last frame's `file` line repeated once more with no duration after it — so the
last displayed frame is listed twice. -/
theorem c7_manifest (frames : List FrameInfo) (fps : Nat)
    (path_exists : String → Bool) (hne : frames ≠ []) (hfps : 0 < fps)
    (hall : ∀ fr ∈ frames, ∃ p, fr.local_path = some p ∧ p ≠ "" ∧
      path_exists p = true) :
    create_frame_list_file frames fps path_exists =
      ManifestLine.header ::
        ((frames.flatMap fun fr =>
          [ManifestLine.file (fr.local_path.getD ""),
           ManifestLine.duration (1 / (fps : ℚ))]) ++
         [ManifestLine.file ((frames.getLast hne).local_path.getD "")]) := by
  obtain ⟨p, hp, hpne, hpe⟩ := hall (frames.getLast hne) (List.getLast_mem hne)
  have hbody : (frames.flatMap fun fr =>
      match fr.local_path with
      | some q =>
          if path_exists q then
            [ManifestLine.file q, ManifestLine.duration (1 / (fps : ℚ))]
          else []
      | none => []) = frames.flatMap fun fr =>
        [ManifestLine.file (fr.local_path.getD ""),
         ManifestLine.duration (1 / (fps : ℚ))] := by
    apply flatMap_congr_of_mem
    intro fr hfr
    obtain ⟨q, hq, hqne, hqe⟩ := hall fr hfr
    simp [hq, hqe]
  unfold create_frame_list_file
  rw [List.getLast?_eq_getLast frames hne, hp]
  simp only [hbody, if_neg hpne, hp]
  rfl

/-- The two-frame sample list for a concrete manifest run. -/
def c7frames : List FrameInfo := [sampleFrame "r1" 1, sampleFrame "r1" 2]

/-- C7 (witness): the concrete two-frame manifest at 24 fps, with every path
present on disk, is header, file/duration pairs, and the second frame's file
line again at the end. -/
theorem c7_manifest_witness :
    (c7frames ≠ []) ∧ 0 < 24 ∧
      create_frame_list_file c7frames 24 (fun _ => true) =
        ManifestLine.header ::
          ((c7frames.flatMap fun fr =>
            [ManifestLine.file (fr.local_path.getD ""),
             ManifestLine.duration (1 / (24 : ℚ))]) ++
           [ManifestLine.file
              ((c7frames.getLast (by decide)).local_path.getD "")]) :=
  ⟨by decide, by decide,
    c7_manifest c7frames 24 (fun _ => true) (by decide) (by decide)
      (by
        intro fr hfr
        simp only [c7frames, List.mem_cons, List.not_mem_nil, or_false]
          at hfr
        rcases hfr with rfl | rfl
        · exact ⟨frame_local_path "/tmp/video_processing" "r1" 1, rfl,
            by decide, rfl⟩
        · exact ⟨frame_local_path "/tmp/video_processing" "r1" 2, rfl,
            by decide, rfl⟩)⟩

/-- Over any list, `filterMap` of a guarded `some` is filter-then-map. -/
theorem filterMap_if_eq_filter_map {α β : Type} (p : α → Bool) (f : α → β)
    (l : List α) :
    l.filterMap (fun x => if p x then some (f x) else none) =
      (l.filter p).map f := by
  induction l with
  | nil => rfl
  | cons a t ih =>
      by_cases h : p a <;> simp [h, ih]

/-- C6: for any completion-order permutation of the per-frame fetch outcomes,
`download_all_frames` returns a list sorted by increasing `frame_number`,
equal up to permutation to exactly the successfully fetched frames (so a
single frame's failure drops only that frame and does not abort the batch),
and of length at most the requested count. -/
theorem c6_download_all_frames (request_id temp_dir : String)
    (total_frames : Nat) (fetch_ok : Nat → Bool)
    (completed : List (Option FrameInfo))
    (hperm : completed.Perm
      (frame_fetch_results request_id temp_dir total_frames fetch_ok)) :
    List.Pairwise (fun a b => a.frame_number ≤ b.frame_number)
        (download_all_frames completed) ∧
      (download_all_frames completed).Perm
        (((List.range' 1 total_frames).filter fetch_ok).map
          (fetched_frame_info request_id temp_dir)) ∧
      (download_all_frames completed).length ≤ total_frames := by
  have htrans : ∀ a b c : FrameInfo, frameLe a b = true → frameLe b c = true →
      frameLe a c = true := by
    intro a b c hab hbc
    simp only [frameLe, decide_eq_true_eq] at *
    omega
  have htotal : ∀ a b : FrameInfo, (frameLe a b || frameLe b a) = true := by
    intro a b
    simp only [frameLe, Bool.or_eq_true, decide_eq_true_eq]
    exact Nat.le_total _ _
  have hsorted := List.sorted_mergeSort htrans htotal (completed.filterMap id)
  have hcanon : (frame_fetch_results request_id temp_dir total_frames
      fetch_ok).filterMap id =
      ((List.range' 1 total_frames).filter fetch_ok).map
        (fetched_frame_info request_id temp_dir) := by
    unfold frame_fetch_results
    rw [List.filterMap_map]
    exact filterMap_if_eq_filter_map fetch_ok
      (fetched_frame_info request_id temp_dir) (List.range' 1 total_frames)
  have hout : (download_all_frames completed).Perm
      (((List.range' 1 total_frames).filter fetch_ok).map
        (fetched_frame_info request_id temp_dir)) := by
    unfold download_all_frames
    exact (List.mergeSort_perm _ _).trans
      ((hperm.filterMap id).trans (by rw [hcanon]))
  refine ⟨?_, hout, ?_⟩
  · exact hsorted.imp fun hab => by
      simpa [frameLe] using hab
  · rw [hout.length_eq, List.length_map]
    exact (List.length_filter_le _ _).trans (List.length_range' 1 1 total_frames).le

/-- Fetch outcome of the concrete retrieval run: frame 2 of 3 fails. -/
def c6ok : Nat → Bool := fun i => i != 2

/-- Gathered outcomes of the concrete retrieval run, in an order that differs
from task order (frame 3 completed first). -/
def c6completed : List (Option FrameInfo) :=
  [some (sampleFrame "r1" 3), none, some (sampleFrame "r1" 1)]

/-- C6 (witness): a 3-frame request where frame 2 fails and frame 3 completes
first still yields the sorted list of the two fetched frames, of length at
most 3. -/
theorem c6_download_all_frames_witness :
    c6completed.Perm
        (frame_fetch_results "r1" "/tmp/video_processing" 3 c6ok) ∧
      (List.Pairwise (fun a b => a.frame_number ≤ b.frame_number)
          (download_all_frames c6completed) ∧
        (download_all_frames c6completed).Perm
          (((List.range' 1 3).filter c6ok).map
            (fetched_frame_info "r1" "/tmp/video_processing")) ∧
        (download_all_frames c6completed).length ≤ 3) :=
  ⟨by decide,
    c6_download_all_frames "r1" "/tmp/video_processing" 3 c6ok c6completed
      (by decide)⟩
